import Mathlib

/-!
Shallow embedding of the twilight oauth2 request-modelling crate: the
enumerated wire tokens (`GrantType`, `Prompt`, `TokenType`), the
client-credentials grant request builder and its URL rendering, the
client-credentials JSON response decoding, and the webhook token exchange
aliasing. Definitions are translated from the Rust source under `src/`;
parts of the crate absent from `src/` (the `Scope` enum, `scope::join`,
the `Client` identity holder, the access token exchange request) are
modelled from the specification and say so in their doc comments.
-/

namespace Oauth2

/-- `GrantType` from `src/grant_type.rs`: closed variant set. -/
inductive GrantType
  | AuthorizationCode
  | ClientCredentials
  | RefreshToken
deriving DecidableEq

/-- `GrantType::name` from `src/grant_type.rs` lines 28 to 34. -/
def GrantType.name : GrantType → String
  | .AuthorizationCode => "authorization_code"
  | .ClientCredentials => "client_credentials"
  | .RefreshToken => "refresh_token"

/-- The serde `Serialize` derive on `GrantType` with
`rename_all = "snake_case"`: each variant serializes to its identifier
converted to snake case. -/
def GrantType.serialize : GrantType → String
  | .AuthorizationCode => "authorization_code"
  | .ClientCredentials => "client_credentials"
  | .RefreshToken => "refresh_token"

/-- The serde `Deserialize` derive on `GrantType`: a wire string equal to a
renamed variant identifier decodes to that variant; any other string is a
decode error (modelled as `none`). -/
def GrantType.deserialize (s : String) : Option GrantType :=
  if s = "authorization_code" then some .AuthorizationCode
  else if s = "client_credentials" then some .ClientCredentials
  else if s = "refresh_token" then some .RefreshToken
  else none

/-- `Prompt` from `src/prompt.rs`: closed variant set. -/
inductive Prompt
  | Consent
  | None
deriving DecidableEq

/-- `Prompt::name` from `src/prompt.rs` lines 28 to 33. -/
def Prompt.name : Prompt → String
  | .Consent => "consent"
  | .None => "none"

/-- The serde `Serialize` derive on `Prompt` with
`rename_all = "snake_case"`. -/
def Prompt.serialize : Prompt → String
  | .Consent => "consent"
  | .None => "none"

/-- The serde `Deserialize` derive on `Prompt`: unknown strings are a
decode error (`none`). -/
def Prompt.deserialize (s : String) : Option Prompt :=
  if s = "consent" then some .Consent
  else if s = "none" then some .None
  else none

/-- `TokenType` from `src/token_type.rs`: the only declared variant is
`Bearer`; there is no fallback variant carrying an unrecognized string. -/
inductive TokenType
  | Bearer
deriving DecidableEq

/-- `TokenType::name` from `src/token_type.rs` lines 24 to 28. -/
def TokenType.name : TokenType → String
  | .Bearer => "Bearer"

/-- The serde `Serialize` derive on `TokenType` with
`rename_all = "PascalCase"`. -/
def TokenType.serialize : TokenType → String
  | .Bearer => "Bearer"

/-- The serde `Deserialize` derive on `TokenType`: only the exact string
`"Bearer"` decodes; every other string is a decode error (`none`), because
the enum declares no unrecognized-value variant. -/
def TokenType.deserialize (s : String) : Option TokenType :=
  if s = "Bearer" then some .Bearer else none

/-- Uppercase hexadecimal digit for a value below 16, as emitted by the
`urlencoding` crate. -/
def hexDigit (n : Nat) : Char :=
  if n < 10 then Char.ofNat (48 + n) else Char.ofNat (55 + n)

/-- Percent-encoding of one byte: `%` followed by two uppercase hex
digits. -/
def encodeByte (b : Nat) : String :=
  "%" ++ String.singleton (hexDigit (b / 16)) ++ String.singleton (hexDigit (b % 16))

/-- UTF-8 byte sequence of a character. -/
def utf8Bytes (c : Char) : List Nat :=
  let n := c.toNat
  if n < 128 then [n]
  else if n < 2048 then [192 + n / 64, 128 + n % 64]
  else if n < 65536 then [224 + n / 4096, 128 + (n / 64) % 64, 128 + n % 64]
  else [240 + n / 262144, 128 + (n / 4096) % 64, 128 + (n / 64) % 64, 128 + n % 64]

/-- The `urlencoding::encode` function used by
`ClientCredentialsGrantRequest::url`: ASCII alphanumerics and `-`, `.`,
`_`, `~` pass through; every other character has each of its UTF-8 bytes
percent-encoded. In particular a space becomes `%20`, never `+`. -/
def urlencode (s : String) : String :=
  s.data.foldl
    (fun acc c =>
      if c.isAlphanum || c = '-' || c = '.' || c = '_' || c = '~' then
        acc ++ String.singleton c
      else
        acc ++ String.join ((utf8Bytes c).map encodeByte))
    ""

/-- Modelled from the spec: the `Scope` enum lives in `scope.rs`, which is
not under `src/`. The spec names it an open-ended set of named OAuth2
permission scopes with canonical wire strings such as `"identify"`,
`"guilds"`, `"bot"`, `"webhook.incoming"`; the variants the claims use are
included here. -/
inductive Scope
  | Identify
  | Guilds
  | Bot
  | WebhookIncoming
deriving DecidableEq

/-- Modelled from the spec: canonical wire string of each scope. -/
def Scope.name : Scope → String
  | .Identify => "identify"
  | .Guilds => "guilds"
  | .Bot => "bot"
  | .WebhookIncoming => "webhook.incoming"

namespace scope

/-- Modelled from the spec: `scope::join` lives in `scope.rs`, which is
not under `src/`. Spec section 4.2: maps each scope to its wire token and
concatenates with a single ASCII space separator, preserving input order;
returns the empty string for an empty sequence; no trimming, no
deduplication, no sorting. -/
def join : List Scope → String
  | [] => ""
  | [s] => s.name
  | s :: rest => s.name ++ " " ++ join rest

end scope

/-- Modelled from the spec: the `Client` identity holder lives in
`client.rs`, which is not under `src/`. Spec section 6: it exposes
`client_id` (an integer id), `client_secret` (a string) and the registered
redirect URIs; builders borrow it read-only. -/
structure Client where
  client_id : Nat
  client_secret : String
  redirect_uris : List String
deriving DecidableEq

/-- `ClientCredentialsGrantRequestBody` from
`src/request/client_credentials_grant.rs` lines 10 to 21. -/
structure ClientCredentialsGrantRequestBody where
  client_id : Nat
  client_secret : String
  grant_type : GrantType
  scope : String
deriving DecidableEq

/-- `ClientCredentialsGrantRequest` from
`src/request/client_credentials_grant.rs` lines 23 to 36. -/
structure ClientCredentialsGrantRequest where
  body : ClientCredentialsGrantRequestBody
  headers : List (String × String)
  url_base : String
deriving DecidableEq

/-- `ClientCredentialsGrantRequest::url` from
`src/request/client_credentials_grant.rs` lines 45 to 56: start from
`url_base`, append `?grant_type=` and the grant type name, then append
`&scope=` and the urlencoded scope string only when the scope string is
nonempty. -/
def ClientCredentialsGrantRequest.url (r : ClientCredentialsGrantRequest) : String :=
  let buf := r.url_base ++ "?grant_type=" ++ r.body.grant_type.name
  if r.body.scope.isEmpty then buf
  else buf ++ "&scope=" ++ urlencode r.body.scope

/-- `ClientCredentialsGrantResponse` from
`src/request/client_credentials_grant.rs` lines 59 to 78; `expires_in` is
a `u64`, modelled as a natural number bounded below `2 ^ 64` at decode
time. -/
structure ClientCredentialsGrantResponse where
  access_token : String
  expires_in : Nat
  token_type : TokenType
  scope : String
deriving DecidableEq

/-- `ClientCredentialsGrantBuilder::BASE_URL` from
`src/request/client_credentials_grant.rs` line 112. -/
def BASE_URL : String := "https://discord.com/api/v6/oauth2/token"

/-- `ClientCredentialsGrantBuilder` from
`src/request/client_credentials_grant.rs` lines 105 to 109: a borrowed
client plus the configured scope list. -/
structure ClientCredentialsGrantBuilder where
  client : Client
  scopes : List Scope
deriving DecidableEq

namespace ClientCredentialsGrantBuilder

/-- `ClientCredentialsGrantBuilder::new` from
`src/request/client_credentials_grant.rs` lines 114 to 119: the default
scope list is `[Scope::Identify]`. -/
def new (c : Client) : ClientCredentialsGrantBuilder :=
  { client := c, scopes := [Scope.Identify] }

/-- `ClientCredentialsGrantBuilder::build` from
`src/request/client_credentials_grant.rs` lines 122 to 133. -/
def build (b : ClientCredentialsGrantBuilder) : ClientCredentialsGrantRequest :=
  { body :=
      { client_id := b.client.client_id
        client_secret := b.client.client_secret
        grant_type := GrantType.ClientCredentials
        scope := scope.join b.scopes }
    headers := [("Content-Type", "application/x-www-form-urlencoded")]
    url_base := BASE_URL }

/-- `ClientCredentialsGrantBuilder::scopes` from
`src/request/client_credentials_grant.rs` lines 147 to 151: replaces the
configured scope list. Named `setScopes` here because the Lean structure
already uses `scopes` for the field of the same name. -/
def setScopes (b : ClientCredentialsGrantBuilder) (s : List Scope) :
    ClientCredentialsGrantBuilder :=
  { b with scopes := s }

/-- State-passing form of the Rust call `builder.build()`: `build` takes
`&self` (a shared borrow), so the builder state after the call is exactly
the state before; the pair returns the request together with that
post-call state. -/
def buildCall (b : ClientCredentialsGrantBuilder) :
    ClientCredentialsGrantRequest × ClientCredentialsGrantBuilder :=
  (b.build, b)

end ClientCredentialsGrantBuilder

/-- A JSON scalar value, sufficient for the response payloads the claims
decode: strings and non-negative integral numbers. -/
inductive JsonValue
  | str (s : String)
  | num (n : Nat)
deriving DecidableEq

/-- A JSON object as an ordered field list, the shape serde presents to a
derived struct deserializer. -/
def JsonObject := List (String × JsonValue)

/-- Field lookup in a JSON object, first match wins. -/
def jsonLookup : List (String × JsonValue) → String → Option JsonValue
  | [], _ => none
  | (k, v) :: rest, key => if k = key then some v else jsonLookup rest key

namespace ClientCredentialsGrantResponse

/-- The serde `Deserialize` derive on `ClientCredentialsGrantResponse`:
each declared field must be present with the right shape
(`access_token : String`, `expires_in : u64`, `token_type : TokenType`,
`scope : String`); a missing field is an error naming that field, a
type-mismatched or out-of-range value is an error naming that field, and
an unknown token-type string is an error; no partially populated struct
is ever produced (the result is all-or-nothing by construction). -/
def deserialize (fields : List (String × JsonValue)) :
    Except String ClientCredentialsGrantResponse :=
  match jsonLookup fields "access_token" with
  | none => .error "missing field access_token"
  | some (.num _) => .error "invalid type for field access_token"
  | some (.str a) =>
    match jsonLookup fields "expires_in" with
    | none => .error "missing field expires_in"
    | some (.str _) => .error "invalid type for field expires_in"
    | some (.num n) =>
      if n < 2 ^ 64 then
        match jsonLookup fields "token_type" with
        | none => .error "missing field token_type"
        | some (.num _) => .error "invalid type for field token_type"
        | some (.str t) =>
          match TokenType.deserialize t with
          | none => .error "unknown variant for field token_type"
          | some tt =>
            match jsonLookup fields "scope" with
            | none => .error "missing field scope"
            | some (.num _) => .error "invalid type for field scope"
            | some (.str sc) =>
              .ok { access_token := a, expires_in := n, token_type := tt, scope := sc }
      else .error "invalid value for field expires_in"

/-- The serde `Serialize` derive on `ClientCredentialsGrantResponse`:
fields are emitted in declaration order with their declared names, the
token type through its own serializer. -/
def serialize (r : ClientCredentialsGrantResponse) : List (String × JsonValue) :=
  [("access_token", .str r.access_token),
   ("expires_in", .num r.expires_in),
   ("token_type", .str r.token_type.serialize),
   ("scope", .str r.scope)]

end ClientCredentialsGrantResponse

/-- Modelled from the spec: `AccessTokenExchangeRequest` lives in
`access_token_exchange.rs`, which is not under `src/`. Spec sections 4.3
and 6: its body carries the client identity, the fixed grant type, the
authorization code, the redirect URI and the scope string, in the wire
order grant type first, then code and redirect URI, then scope last. -/
structure AccessTokenExchangeRequestBody where
  client_id : Nat
  client_secret : String
  grant_type : GrantType
  code : String
  redirect_uri : String
  scope : String
deriving DecidableEq

/-- Modelled from the spec: the access token exchange request descriptor,
body plus static header list plus base URL, like every request descriptor
of spec section 3. -/
structure AccessTokenExchangeRequest where
  body : AccessTokenExchangeRequestBody
  headers : List (String × String)
  url_base : String
deriving DecidableEq

/-- `WebhookTokenExchangeRequest` from
`src/request/webhook_token_exchange.rs` line 13: a type alias of
`AccessTokenExchangeRequest`, not a distinct request shape. -/
def WebhookTokenExchangeRequest := AccessTokenExchangeRequest

/-- Modelled from the spec: the JSON field names of the access token
exchange response. Spec section 6 lists the response field names
`access_token`, `expires_in`, `refresh_token`, `scope`, `token_type`,
with flow-specific extras only for other flows. -/
def accessTokenExchangeResponseFields : List String :=
  ["access_token", "expires_in", "refresh_token", "scope", "token_type"]

/-- The JSON field names of `WebhookTokenExchangeResponse`, in the
declaration order of `src/request/webhook_token_exchange.rs` lines 21 to
45: the access token exchange response fields plus the nested `webhook`
object. -/
def webhookTokenExchangeResponseFields : List String :=
  ["access_token", "expires_in", "refresh_token", "scope", "token_type", "webhook"]

/-- Follows the words of spec section 3 for the C2 comparison: direct
form-encoding of the whole client-credentials body, field by field in
declaration order (`client_id`, `client_secret`, `grant_type`, `scope`),
values percent-encoded, with an empty scope omitted entirely. -/
def formEncodeWholeBody (b : ClientCredentialsGrantRequestBody) : String :=
  "client_id=" ++ toString b.client_id ++
    "&client_secret=" ++ urlencode b.client_secret ++
    "&grant_type=" ++ b.grant_type.name ++
    (if b.scope.isEmpty then "" else "&scope=" ++ urlencode b.scope)

/-- Follows the words of spec section 4.3 restricted to the fields the
URL actually carries: `grant_type=` and the grant type name, then
`&scope=` and the percent-encoded scope string only when the scope string
is nonempty. -/
def formEncodeGrantScope (b : ClientCredentialsGrantRequestBody) : String :=
  "grant_type=" ++ b.grant_type.name ++
    (if b.scope.isEmpty then "" else "&scope=" ++ urlencode b.scope)

/-- Claim C1, counterexample: the wire string `"MAC"` differs from
`"Bearer"`, and decoding it as a `TokenType` fails (`none`), contradicting
the claim that every non-Bearer string decodes into a preserved
unrecognized-value fallback. -/
theorem tokenType_unknown_decode_fails :
    ("MAC" : String) ≠ "Bearer" ∧ TokenType.deserialize "MAC" = none :=
  ⟨by decide, by decide⟩

/-- Claim C1, as amended: decoding the token-type wire string `"Bearer"`
succeeds, and decoding every other wire string fails with a decode error,
because `TokenType` declares no unrecognized-value fallback variant. -/
theorem tokenType_decode_bearer_only (s : String) (h : s ≠ "Bearer") :
    TokenType.deserialize "Bearer" = some TokenType.Bearer ∧
      TokenType.deserialize s = none := by
  refine ⟨by decide, ?_⟩
  unfold TokenType.deserialize
  rw [if_neg h]

/-- Claim C1, witness: the amended theorem applied at the concrete
non-Bearer wire string `"MAC"`. -/
theorem tokenType_decode_bearer_only_witness :
    ("MAC" : String) ≠ "Bearer" ∧
      (TokenType.deserialize "Bearer" = some TokenType.Bearer ∧
        TokenType.deserialize "MAC" = none) :=
  ⟨by decide, tokenType_decode_bearer_only "MAC" (by decide)⟩

/-- Claim C2, counterexample: for a concrete request the URL rendered by
`url` is not the base URL, `?`, and the direct form-encoding of the whole
body: `url` never emits the `client_id` and `client_secret` fields. -/
theorem url_differs_from_wholeBody_encoding :
    (ClientCredentialsGrantRequest.mk ⟨1, "a", GrantType.ClientCredentials, "identify"⟩
        [("Content-Type", "application/x-www-form-urlencoded")] BASE_URL).url ≠
      BASE_URL ++ "?" ++
        formEncodeWholeBody ⟨1, "a", GrantType.ClientCredentials, "identify"⟩ := by
  decide

/-- Splitting the literal `"?grant_type="` at its first character. -/
theorem qmark_split (s : String) : "?grant_type=" ++ s = "?" ++ ("grant_type=" ++ s) := by
  rw [← String.append_assoc]
  rfl

/-- Claim C2, as amended: for every request, `url` returns the base URL,
then `?`, then the query reconstructed from only the `grant_type` and
`scope` fields of the body, with an empty scope omitted entirely rather
than emitted as an empty pair; the `client_id` and `client_secret` body
fields never appear in the URL. -/
theorem url_eq_grantScope_encoding (r : ClientCredentialsGrantRequest) :
    r.url = r.url_base ++ "?" ++ formEncodeGrantScope r.body := by
  unfold ClientCredentialsGrantRequest.url formEncodeGrantScope
  by_cases h : r.body.scope.isEmpty = true
  · simp only [h, if_true, String.append_empty]
    simp only [String.append_assoc, qmark_split]
  · simp only [h, Bool.false_eq_true, if_false]
    simp only [String.append_assoc, qmark_split]

/-- Claim C2, witness: the amended theorem applied at a concrete request
with a nonempty scope, where both sides evaluate to the same concrete
URL. -/
theorem url_eq_grantScope_encoding_witness :
    (ClientCredentialsGrantRequest.mk ⟨1, "a", GrantType.ClientCredentials, "identify"⟩
        [("Content-Type", "application/x-www-form-urlencoded")] BASE_URL).url =
      BASE_URL ++ "?" ++
        formEncodeGrantScope ⟨1, "a", GrantType.ClientCredentials, "identify"⟩ :=
  url_eq_grantScope_encoding
    (ClientCredentialsGrantRequest.mk ⟨1, "a", GrantType.ClientCredentials, "identify"⟩
      [("Content-Type", "application/x-www-form-urlencoded")] BASE_URL)

/-- Claim C3: for every variant of `GrantType`, `Prompt` and `TokenType`,
deserializing the string produced by `name` yields exactly that variant,
and the derived serialization produces the same string as `name`. -/
theorem enum_serialization_roundTrip :
    (∀ g : GrantType, GrantType.deserialize g.name = some g ∧ g.serialize = g.name) ∧
    (∀ p : Prompt, Prompt.deserialize p.name = some p ∧ p.serialize = p.name) ∧
    (∀ t : TokenType, TokenType.deserialize t.name = some t ∧ t.serialize = t.name) := by
  refine ⟨fun g => ?_, fun p => ?_, fun t => ?_⟩
  · cases g <;> exact ⟨by decide, rfl⟩
  · cases p <;> exact ⟨by decide, rfl⟩
  · cases t
    exact ⟨by decide, rfl⟩

/-- Claim C4: for every client, the builder with default configuration
renders exactly the token endpoint URL with `scope=identify`, and with
scopes `[Guilds, Identify]` it renders exactly the URL with
`scope=guilds%20identify`, the separating space percent-encoded as `%20`
and the input order preserved. -/
theorem clientCredentials_builder_urls (c : Client) :
    (ClientCredentialsGrantBuilder.new c).build.url =
      "https://discord.com/api/v6/oauth2/token?grant_type=client_credentials&scope=identify" ∧
    ((ClientCredentialsGrantBuilder.new c).setScopes [Scope.Guilds, Scope.Identify]).build.url =
      "https://discord.com/api/v6/oauth2/token?grant_type=client_credentials&scope=guilds%20identify" :=
  ⟨rfl, rfl⟩

/-- Claim C4, witness: the theorem applied at a concrete client. -/
theorem clientCredentials_builder_urls_witness :
    (ClientCredentialsGrantBuilder.new ⟨1, "a", ["https://example.com"]⟩).build.url =
      "https://discord.com/api/v6/oauth2/token?grant_type=client_credentials&scope=identify" ∧
    ((ClientCredentialsGrantBuilder.new ⟨1, "a", ["https://example.com"]⟩).setScopes
        [Scope.Guilds, Scope.Identify]).build.url =
      "https://discord.com/api/v6/oauth2/token?grant_type=client_credentials&scope=guilds%20identify" :=
  clientCredentials_builder_urls ⟨1, "a", ["https://example.com"]⟩

/-- Claim C5: `scope.join` of the empty sequence is the empty string,
`scope.join [Identify]` is `"identify"`, `scope.join [Guilds, Identify]`
is `"guilds identify"`, and in general joining a nonempty sequence emits
the head wire token followed, when the tail is nonempty, by a single
ASCII space and the join of the tail: order preserved, no trimming, no
deduplication, no sorting. -/
theorem scope_join_spec :
    scope.join [] = "" ∧
    scope.join [Scope.Identify] = "identify" ∧
    scope.join [Scope.Guilds, Scope.Identify] = "guilds identify" ∧
    ∀ (s : Scope) (rest : List Scope),
      scope.join (s :: rest) =
        s.name ++ (if rest.isEmpty then "" else " " ++ scope.join rest) := by
  refine ⟨rfl, rfl, rfl, fun s rest => ?_⟩
  cases rest with
  | nil => simp [scope.join]
  | cons a l => simp [scope.join, String.append_assoc]

/-- Claim C6: decoding a well-formed client-credentials JSON payload with
`access_token`, a `u64`-ranged `expires_in`, token type `"Bearer"` and
`scope` succeeds with the fully populated response, re-serializing that
response yields the same field list back, and decoding the same payload
with `access_token` removed fails with a decode error naming that
field. -/
theorem clientCredentialsResponse_decode (a sc : String) (n : Nat) (h : n < 2 ^ 64) :
    ClientCredentialsGrantResponse.deserialize
        [("access_token", .str a), ("expires_in", .num n),
         ("token_type", .str "Bearer"), ("scope", .str sc)] =
      .ok { access_token := a, expires_in := n, token_type := .Bearer, scope := sc } ∧
    ClientCredentialsGrantResponse.serialize
        { access_token := a, expires_in := n, token_type := .Bearer, scope := sc } =
      [("access_token", .str a), ("expires_in", .num n),
       ("token_type", .str "Bearer"), ("scope", .str sc)] ∧
    ClientCredentialsGrantResponse.deserialize
        [("expires_in", .num n), ("token_type", .str "Bearer"), ("scope", .str sc)] =
      .error "missing field access_token" := by
  refine ⟨?_, rfl, ?_⟩
  · simp [ClientCredentialsGrantResponse.deserialize, jsonLookup, TokenType.deserialize]
    omega
  · simp [ClientCredentialsGrantResponse.deserialize, jsonLookup]

/-- Claim C6, witness: the theorem applied at the concrete payload with
token `"tok"`, expiry `604800` and scope `"identify"`. -/
theorem clientCredentialsResponse_decode_witness :
    (604800 < 2 ^ 64) ∧
      (ClientCredentialsGrantResponse.deserialize
          [("access_token", .str "tok"), ("expires_in", .num 604800),
           ("token_type", .str "Bearer"), ("scope", .str "identify")] =
        .ok { access_token := "tok", expires_in := 604800, token_type := .Bearer,
              scope := "identify" } ∧
      ClientCredentialsGrantResponse.serialize
          { access_token := "tok", expires_in := 604800, token_type := .Bearer,
            scope := "identify" } =
        [("access_token", .str "tok"), ("expires_in", .num 604800),
         ("token_type", .str "Bearer"), ("scope", .str "identify")] ∧
      ClientCredentialsGrantResponse.deserialize
          [("expires_in", .num 604800), ("token_type", .str "Bearer"),
           ("scope", .str "identify")] =
        .error "missing field access_token") :=
  ⟨by norm_num, clientCredentialsResponse_decode "tok" "identify" 604800 (by norm_num)⟩

/-- Claim C7: every wire string that is not the canonical token of any
`GrantType` variant fails to decode as `GrantType`, and every wire string
that is not the canonical token of any `Prompt` variant fails to decode
as `Prompt`: the closed enums never silently accept an unrecognized
token. -/
theorem closed_enum_unknown_decode_fails (s : String)
    (hg : ∀ g : GrantType, s ≠ g.name) (hp : ∀ p : Prompt, s ≠ p.name) :
    GrantType.deserialize s = none ∧ Prompt.deserialize s = none := by
  have h1 := hg .AuthorizationCode
  have h2 := hg .ClientCredentials
  have h3 := hg .RefreshToken
  have h4 := hp .Consent
  have h5 := hp .None
  simp only [GrantType.name, Prompt.name] at h1 h2 h3 h4 h5
  exact ⟨by simp [GrantType.deserialize, h1, h2, h3],
    by simp [Prompt.deserialize, h4, h5]⟩

/-- Claim C7, witness: the theorem applied at the concrete wire string
`"bogus_value"`, which matches no variant of either closed enum. -/
theorem closed_enum_unknown_decode_fails_witness :
    ("bogus_value" : String) ≠ GrantType.name .AuthorizationCode ∧
    ("bogus_value" : String) ≠ GrantType.name .ClientCredentials ∧
    ("bogus_value" : String) ≠ GrantType.name .RefreshToken ∧
    ("bogus_value" : String) ≠ Prompt.name .Consent ∧
    ("bogus_value" : String) ≠ Prompt.name .None ∧
    (GrantType.deserialize "bogus_value" = none ∧
      Prompt.deserialize "bogus_value" = none) :=
  ⟨by decide, by decide, by decide, by decide, by decide,
    closed_enum_unknown_decode_fails "bogus_value"
      (fun g => by cases g <;> decide) (fun p => by cases p <;> decide)⟩

/-- Claim C8: for every builder configuration (any client and any scope
list), the request produced by `build` has grant type
`ClientCredentials`, exactly the single form-urlencoded content-type
header, and the fixed token endpoint as its base URL. -/
theorem build_fixed_fields (b : ClientCredentialsGrantBuilder) :
    b.build.body.grant_type = GrantType.ClientCredentials ∧
    b.build.headers = [("Content-Type", "application/x-www-form-urlencoded")] ∧
    b.build.url_base = "https://discord.com/api/v6/oauth2/token" :=
  ⟨rfl, rfl, rfl⟩

/-- Claim C8, witness: the theorem applied at a concrete builder with a
non-default scope list. -/
theorem build_fixed_fields_witness :
    (ClientCredentialsGrantBuilder.mk ⟨7, "s", []⟩ [Scope.Bot]).build.body.grant_type =
      GrantType.ClientCredentials ∧
    (ClientCredentialsGrantBuilder.mk ⟨7, "s", []⟩ [Scope.Bot]).build.headers =
      [("Content-Type", "application/x-www-form-urlencoded")] ∧
    (ClientCredentialsGrantBuilder.mk ⟨7, "s", []⟩ [Scope.Bot]).build.url_base =
      "https://discord.com/api/v6/oauth2/token" :=
  build_fixed_fields (ClientCredentialsGrantBuilder.mk ⟨7, "s", []⟩ [Scope.Bot])

/-- Claim C9: `buildCall` leaves the builder state unchanged, two
consecutive builds with no reconfiguration return equal requests, and
after reconfiguring the scopes a later build depends only on the current
configuration, independent of any earlier build. -/
theorem build_does_not_consume_builder (b : ClientCredentialsGrantBuilder)
    (s2 : List Scope) :
    b.buildCall.2 = b ∧
    (b.buildCall.2).buildCall.1 = b.buildCall.1 ∧
    ((b.buildCall.2).setScopes s2).build = (b.setScopes s2).build :=
  ⟨rfl, rfl, rfl⟩

/-- Claim C9, witness: the theorem applied at a concrete builder and a
concrete reconfiguration. -/
theorem build_does_not_consume_builder_witness :
    (ClientCredentialsGrantBuilder.mk ⟨1, "a", []⟩ [Scope.Identify]).buildCall.2 =
      ClientCredentialsGrantBuilder.mk ⟨1, "a", []⟩ [Scope.Identify] ∧
    ((ClientCredentialsGrantBuilder.mk ⟨1, "a", []⟩ [Scope.Identify]).buildCall.2).buildCall.1 =
      (ClientCredentialsGrantBuilder.mk ⟨1, "a", []⟩ [Scope.Identify]).buildCall.1 ∧
    (((ClientCredentialsGrantBuilder.mk ⟨1, "a", []⟩ [Scope.Identify]).buildCall.2).setScopes
        [Scope.Guilds, Scope.Identify]).build =
      ((ClientCredentialsGrantBuilder.mk ⟨1, "a", []⟩ [Scope.Identify]).setScopes
        [Scope.Guilds, Scope.Identify]).build :=
  build_does_not_consume_builder
    (ClientCredentialsGrantBuilder.mk ⟨1, "a", []⟩ [Scope.Identify])
    [Scope.Guilds, Scope.Identify]

/-- Claim C10, counterexample: `refresh_token` is not a field the webhook
token exchange response adds, because it is already a field of the access
token exchange response; this refutes the claim that the webhook response
adds the `refresh_token`, `scope`, `token_type` and `webhook` fields. -/
theorem webhookResponse_refreshToken_not_added :
    ¬("refresh_token" ∈ webhookTokenExchangeResponseFields ∧
      "refresh_token" ∉ accessTokenExchangeResponseFields) := by
  decide

/-- Claim C10, as amended: the webhook token exchange request type is
definitionally the access token exchange request type (a type alias, so
every webhook token exchange sends exactly the same request descriptor),
and the webhook response adds only the `webhook` field to the access
token exchange response fields, which already include `refresh_token`,
`scope` and `token_type`. -/
theorem webhook_request_alias_and_response_fields :
    WebhookTokenExchangeRequest = AccessTokenExchangeRequest ∧
    webhookTokenExchangeResponseFields =
      accessTokenExchangeResponseFields ++ ["webhook"] :=
  ⟨rfl, rfl⟩

end Oauth2
